import Mathlib

/-!
A shallow embedding of the datagram-socket core of the repository
(`src/include/Socket.hpp`, `src/src/Socket.cpp`, namespace `r3`), together
with theorems settling the specification claims about it.

Machine integers are modelled as `Nat` (with explicit `% 2^w` where the C
code truncates), file descriptors as `Int` (the `-1` sentinel is part of the
source's logic), and calls into the operating system as explicit oracle
parameters: each OS call's outcome is an extra argument of the modelled
operation, so that both the success and the failure path of the C code are
represented.
-/

namespace R3

/-- Model of `enum class SocketError` of `Socket.hpp` lines 15-27. -/
inductive SocketError where
  | kInvalidSocket
  | kBindFailed
  | kConnectFailed
  | kSendFailed
  | kReceiveFailed
  | kInvalidAddress
  | kSocketOptionFailed
  | kNotBound
  | kAddressParseError
  | kTrainOrderParseError
deriving DecidableEq, Repr

/-- Model of `r3::to_string(SocketError)` of `Socket.cpp` lines 15-40: a `switch`
with nine labelled cases and a `default` arm (which catches
`kTrainOrderParseError` and anything else). -/
def SocketError.to_string : SocketError → String
  | .kInvalidSocket => "Invalid socket"
  | .kBindFailed => "Bind operation failed"
  | .kConnectFailed => "Connect operation failed"
  | .kSendFailed => "Send operation failed"
  | .kReceiveFailed => "Receive operation failed"
  | .kInvalidAddress => "Invalid address"
  | .kSocketOptionFailed => "Socket option operation failed"
  | .kNotBound => "Socket not bound"
  | .kAddressParseError => "Address parsing error"
  | _ => "Unknown error"

/-- Model of `struct IPv4Address` of `Socket.hpp` lines 79-100: a
`std::array<uint8_t, 4> octets`, modelled as four fields `o0 … o3 : Fin 256`
(field `oi` is `octets[i]`; `Fin 256` captures the `uint8_t` range).
`operator==` is componentwise equality, which is structure equality here. -/
structure IPv4Address where
  o0 : Fin 256
  o1 : Fin 256
  o2 : Fin 256
  o3 : Fin 256
deriving DecidableEq, Repr

/-- The `constexpr IPv4Address(uint8_t a, uint8_t b, uint8_t c, uint8_t d)`
constructor of `Socket.hpp` line 85: `octets{a, b, c, d}`. -/
def IPv4Address.mk4 (a b c d : Fin 256) : IPv4Address := ⟨a, b, c, d⟩

/-- Model of `IPv4Address::IPv4Address(uint32_t addr)` of `Socket.cpp` lines 61-67:
`octets[i] = (addr >> 8*i) & 0xFF`.  Right shift by `8*i` is division by
`256^i` and masking with `0xFF` is `% 256` on natural numbers. -/
def IPv4Address.ofUint32 (addr : Nat) : IPv4Address :=
  ⟨⟨addr % 256, Nat.mod_lt _ (by decide)⟩,
   ⟨addr / 256 % 256, Nat.mod_lt _ (by decide)⟩,
   ⟨addr / 65536 % 256, Nat.mod_lt _ (by decide)⟩,
   ⟨addr / 16777216 % 256, Nat.mod_lt _ (by decide)⟩⟩

/-- Model of `IPv4Address::to_uint32` of `Socket.cpp` lines 79-85:
`(o0 << 0) | (o1 << 8) | (o2 << 16) | (o3 << 24)`.  The four shifted bytes
occupy disjoint bit ranges, so the bitwise or is the sum
`o0 + o1*2^8 + o2*2^16 + o3*2^24`. -/
def IPv4Address.to_uint32 (a : IPv4Address) : Nat :=
  a.o0.val + a.o1.val * 256 + a.o2.val * 65536 + a.o3.val * 16777216

/-- Constant `kLocalHost{127, 0, 0, 1}` of `Socket.hpp` line 102. -/
def kLocalHost : IPv4Address := IPv4Address.mk4 127 0 0 1

/-- Constant `kAny{0, 0, 0, 0}` of `Socket.hpp` line 103. -/
def kAny : IPv4Address := IPv4Address.mk4 0 0 0 0

/-- Constant `kBroadcast{255, 255, 255, 255}` of `Socket.hpp` line 104. -/
def kBroadcast : IPv4Address := IPv4Address.mk4 255 255 255 255

/-- Model of `htons` on a little-endian host: the argument is truncated to
`uint16_t` and its two bytes are swapped. -/
def htons (p : Nat) : Nat :=
  (p % 65536 % 256) * 256 + p % 65536 / 256

/-- Model of `ntohs` on a little-endian host: same byte swap as `htons`. -/
def ntohs (p : Nat) : Nat :=
  (p % 65536 % 256) * 256 + p % 65536 / 256

/-- Model of `htonl` on a little-endian host: the argument is truncated to
`uint32_t` and its four bytes are reversed. -/
def htonl (n : Nat) : Nat :=
  (n % 4294967296 % 256) * 16777216 +
  (n % 4294967296 / 256 % 256) * 65536 +
  (n % 4294967296 / 65536 % 256) * 256 +
  n % 4294967296 / 16777216

/-- Model of `ntohl` on a little-endian host: same byte reversal as `htonl`. -/
def ntohl (n : Nat) : Nat :=
  (n % 4294967296 % 256) * 16777216 +
  (n % 4294967296 / 256 % 256) * 65536 +
  (n % 4294967296 / 65536 % 256) * 256 +
  n % 4294967296 / 16777216

/-- Fuel-driven decimal digit list of a natural number, most significant
digit first; `fuel` strictly exceeding `n` always suffices.  Structural in
the fuel so that concrete instances reduce in the kernel. -/
def natToDigitsAux : Nat → Nat → List Nat
  | 0, _ => []
  | fuel + 1, n => if n < 10 then [n] else natToDigitsAux fuel (n / 10) ++ [n % 10]

/-- Decimal digit list of `n`, most significant digit first, no leading
zeros (a single `0` for `n = 0`): the digit sequence produced by
`std::ostringstream << static_cast<int>(octet)`. -/
def natToDigits (n : Nat) : List Nat := natToDigitsAux (n + 1) n

/-- Character of a single decimal digit (`0` ↦ `'0'`, …, `9` ↦ `'9'`). -/
def digitToChar (d : Nat) : Char := Char.ofNat (48 + d)

/-- Decimal character rendering of one octet value. -/
def octetChars (n : Nat) : List Char := (natToDigits n).map digitToChar

/-- Model of `IPv4Address::to_string` of `Socket.cpp` lines 69-77: the four
octets printed in decimal via `ostringstream`, joined with `'.'`. -/
def IPv4Address.to_string (a : IPv4Address) : String :=
  ⟨octetChars a.o0.val ++ '.' :: (octetChars a.o1.val ++ '.' ::
    (octetChars a.o2.val ++ '.' :: octetChars a.o3.val))⟩

/-- Property of one formatted component: nonempty, decimal digit characters
only, and no leading zeros (a lone `'0'` is allowed). -/
def decimalNoLeadingZeros (l : List Char) : Prop :=
  l ≠ [] ∧ (∀ c ∈ l, 48 ≤ c.toNat ∧ c.toNat ≤ 57) ∧
    (l = ['0'] ∨ l.head? ≠ some '0')

/-- Splitting a character list at every `'.'` (used to model the platform
parser's four dot-separated fields); always returns at least one piece. -/
def splitOnDot : List Char → List (List Char)
  | [] => [[]]
  | c :: rest =>
    if c = '.' then [] :: splitOnDot rest
    else
      match splitOnDot rest with
      | [] => [[c]]
      | piece :: pieces => (c :: piece) :: pieces

/-- Numeric value of a decimal digit character, `none` for anything else. -/
def charToDigit (c : Char) : Option Nat :=
  if 48 ≤ c.toNat ∧ c.toNat ≤ 57 then some (c.toNat - 48) else none

/-- One dotted-quad field: decimal digits only, nonempty, no leading zero
(the platform's numeric-only parser rejects forms like `01` as octal-like),
value at most 255. -/
def parseOctet (l : List Char) : Option Nat :=
  match l.mapM charToDigit with
  | none => none
  | some [] => none
  | some ds =>
    if ds.length > 1 ∧ ds.headD 0 = 0 then none
    else
      let v := ds.foldl (fun acc d => acc * 10 + d) 0
      if v ≤ 255 then some v else none

/-- Modelled from the spec: the platform's `inet_pton(AF_INET, …)` used by
`IPv4Address::from_string` (`Socket.cpp` line 47) is not repository code.
Per the spec it accepts exactly the canonical numeric dotted-quad form
(four decimal octets separated by dots, no hex, no shorthand) and the
source then reads `addr.s_addr` — the address in network byte order — as a
host-order `uint32_t`, which on the little-endian host assumed in the spec
places the first written octet in the low byte.  Returns that integer, or
`none` on any malformed input. -/
def inetPtonIPv4 (s : String) : Option Nat :=
  match splitOnDot s.data with
  | [p0, p1, p2, p3] =>
    match parseOctet p0, parseOctet p1, parseOctet p2, parseOctet p3 with
    | some a, some b, some c, some d =>
        some (a + b * 256 + c * 65536 + d * 16777216)
    | _, _, _, _ => none
  | _ => none

/-- Model of `IPv4Address::from_string` of `Socket.cpp` lines 44-59:
`inet_pton` failure (result `<= 0`) yields `kAddressParseError`; otherwise
`octets[i] = (network_addr >> 8*i) & 0xFF` exactly as in lines 52-58. -/
def IPv4Address.from_string (addr_str : String) :
    Except SocketError IPv4Address :=
  match inetPtonIPv4 addr_str with
  | none => .error .kAddressParseError
  | some network_addr =>
    .ok ⟨⟨network_addr % 256, Nat.mod_lt _ (by decide)⟩,
         ⟨network_addr / 256 % 256, Nat.mod_lt _ (by decide)⟩,
         ⟨network_addr / 65536 % 256, Nat.mod_lt _ (by decide)⟩,
         ⟨network_addr / 16777216 % 256, Nat.mod_lt _ (by decide)⟩⟩

/-- Constant `AF_INET` of the platform headers (value 2 on Linux); stored in
`sin_family` by `bind` and `connect`. -/
def AF_INET : Nat := 2

/-- Model of `struct sockaddr_in`: the three fields the source reads or
writes (`sin_family`, `sin_port`, `sin_addr.s_addr`); the port and the
address are held in network byte order, exactly as the source stores them. -/
structure SockAddrIn where
  sin_family : Nat
  sin_port : Nat
  sin_addr : Nat
deriving DecidableEq, Repr

/-- Result of `memset(&addr, 0, sizeof(addr))`: all fields zero. -/
def SockAddrIn.zeroed : SockAddrIn := ⟨0, 0, 0⟩

/-- Model of `class UDPSocket` of `Socket.hpp` lines 107-179: the four data
members `m_socket_fd`, `m_local_addr`, `m_remote_addr`, `m_is_bound`. -/
structure UDPSocket where
  m_socket_fd : Int
  m_local_addr : SockAddrIn
  m_remote_addr : SockAddrIn
  m_is_bound : Bool
deriving DecidableEq, Repr

/-- Model of the private default constructor `UDPSocket::UDPSocket()` of
`Socket.cpp` lines 99-106: both address records zeroed, `m_is_bound` false,
and `m_socket_fd` set to the result of the OS call
`socket(AF_INET, SOCK_DGRAM, 0)`, passed here as the oracle `osFd`
(`-1` when the allocation fails). -/
def UDPSocket.mkSocket (osFd : Int) : UDPSocket :=
  { m_socket_fd := osFd
    m_local_addr := SockAddrIn.zeroed
    m_remote_addr := SockAddrIn.zeroed
    m_is_bound := false }

/-- Model of `UDPSocket::is_valid` of `Socket.cpp` lines 276-279:
`m_socket_fd != -1`. -/
def UDPSocket.is_valid (s : UDPSocket) : Bool := decide (s.m_socket_fd ≠ -1)

/-- Model of `UDPSocket::get_fd` of `Socket.cpp` lines 281-284. -/
def UDPSocket.get_fd (s : UDPSocket) : Int := s.m_socket_fd

/-- Model of `UDPSocket::create` of `Socket.cpp` lines 108-116: default
construction followed by the validity check. -/
def UDPSocket.create (osFd : Int) : Except SocketError UDPSocket :=
  let socket := UDPSocket.mkSocket osFd
  if socket.is_valid then .ok socket else .error .kInvalidSocket

/-- Model of `UDPSocket::bind` of `Socket.cpp` lines 149-167.  The source
first writes `sin_family`, `sin_port = htons(port)` and
`sin_addr.s_addr = htonl(address.to_uint32())` into `m_local_addr`, and only
then calls the OS `::bind`, whose outcome is the oracle `osBindOk`; on OS
failure it returns `kBindFailed` with `m_local_addr` already overwritten and
`m_is_bound` untouched, on success it sets `m_is_bound = true`.  Returns the
result together with the endpoint's state after the call. -/
def UDPSocket.bind (s : UDPSocket) (address : IPv4Address) (port : Nat)
    (osBindOk : Bool) : Except SocketError Unit × UDPSocket :=
  if s.is_valid then
    let s1 := { s with
      m_local_addr := ⟨AF_INET, htons port, htonl address.to_uint32⟩ }
    if osBindOk then (.ok (), { s1 with m_is_bound := true })
    else (.error .kBindFailed, s1)
  else (.error .kInvalidSocket, s)

/-- Model of `UDPSocket::connect` of `Socket.cpp` lines 169-187: writes the
destination into `m_remote_addr`, then calls the OS `::connect` (oracle
`osConnectOk`). -/
def UDPSocket.connect (s : UDPSocket) (address : IPv4Address) (port : Nat)
    (osConnectOk : Bool) : Except SocketError Unit × UDPSocket :=
  if s.is_valid then
    let s1 := { s with
      m_remote_addr := ⟨AF_INET, htons port, htonl address.to_uint32⟩ }
    if osConnectOk then (.ok (), s1)
    else (.error .kConnectFailed, s1)
  else (.error .kInvalidSocket, s)

/-- Model of `UDPSocket::send_to` of `Socket.cpp` lines 204-223.  The
destination `sockaddr_in` is a local variable, so the endpoint's state is
unchanged; the OS `sendto` outcome is the oracle `osResult` (`-1` means
failure).  The bytes pointed to by `data` do not affect the modelled state,
so only their count `size` appears. -/
def UDPSocket.send_to (s : UDPSocket) (size : Nat) (address : IPv4Address)
    (port : Nat) (osResult : Int) : Except SocketError Int :=
  if s.is_valid then
    if osResult = -1 then .error .kSendFailed else .ok osResult
  else .error .kInvalidSocket

/-- Model of `struct UDPSocket::ReceiveFromResult` of `Socket.hpp`
lines 154-159. -/
structure ReceiveFromResult where
  bytes_received : Int
  sender_address : IPv4Address
  sender_port : Nat
deriving DecidableEq, Repr

/-- Model of `UDPSocket::receive_from` of `Socket.cpp` lines 240-264.  The
OS `recvfrom` outcome is the oracle triple: `osBytes` (`-1` means failure)
and the sender's address and port as written by the OS in network byte
order. -/
def UDPSocket.receive_from (s : UDPSocket) (size : Nat) (osBytes : Int)
    (osSenderAddrNet osSenderPortNet : Nat) :
    Except SocketError ReceiveFromResult :=
  if s.is_valid then
    if osBytes = -1 then .error .kReceiveFailed
    else .ok ⟨osBytes, IPv4Address.ofUint32 (ntohl osSenderAddrNet),
      ntohs osSenderPortNet⟩
  else .error .kInvalidSocket

/-- Model of `UDPSocket::close` of `Socket.cpp` lines 266-274: when a
descriptor is held, the OS `::close` is called and `m_socket_fd` and
`m_is_bound` are reset; otherwise nothing happens.  The returned boolean
records whether the OS `::close` was invoked (a descriptor released); the
member function itself returns `void`, i.e. it cannot report an error. -/
def UDPSocket.close (s : UDPSocket) : UDPSocket × Bool :=
  if s.m_socket_fd ≠ -1 then
    ({ s with m_socket_fd := -1, m_is_bound := false }, true)
  else (s, false)

/-- Iterated `close()`: `n` further calls after some prefix of calls. -/
def UDPSocket.closeTimes (s : UDPSocket) : Nat → UDPSocket
  | 0 => s
  | n + 1 => (s.close.1).closeTimes n

/-- Model of `UDPSocket::get_local_address` of `Socket.cpp` lines 286-294:
`kNotBound` unless `m_is_bound`, else the recorded
`ntohl(m_local_addr.sin_addr.s_addr)` rebuilt through the `uint32_t`
constructor. -/
def UDPSocket.get_local_address (s : UDPSocket) :
    Except SocketError IPv4Address :=
  if s.m_is_bound then .ok (IPv4Address.ofUint32 (ntohl s.m_local_addr.sin_addr))
  else .error .kNotBound

/-- Model of `UDPSocket::get_local_port` of `Socket.cpp` lines 296-304:
`kNotBound` unless `m_is_bound`, else `ntohs(m_local_addr.sin_port)`. -/
def UDPSocket.get_local_port (s : UDPSocket) : Except SocketError Nat :=
  if s.m_is_bound then .ok (ntohs s.m_local_addr.sin_port)
  else .error .kNotBound

/-- Model of `UDPSocket::get_remote_address` of `Socket.cpp` lines 306-309
(no guard; zeroed record when never connected). -/
def UDPSocket.get_remote_address (s : UDPSocket) :
    Except SocketError IPv4Address :=
  .ok (IPv4Address.ofUint32 (ntohl s.m_remote_addr.sin_addr))

/-- Model of `UDPSocket::get_remote_port` of `Socket.cpp` lines 311-314. -/
def UDPSocket.get_remote_port (s : UDPSocket) : Except SocketError Nat :=
  .ok (ntohs s.m_remote_addr.sin_port)

/-- Model of `UDPSocket::set_broadcast` of `Socket.cpp` lines 316-329; the
`setsockopt` outcome is the oracle `osOk`.  The endpoint's own state is
unchanged either way. -/
def UDPSocket.set_broadcast (s : UDPSocket) (enable : Bool) (osOk : Bool) :
    Except SocketError Unit :=
  if s.is_valid then
    if osOk then .ok () else .error .kSocketOptionFailed
  else .error .kInvalidSocket

/-- Model of `UDPSocket::set_reuse_address` of `Socket.cpp` lines 331-344. -/
def UDPSocket.set_reuse_address (s : UDPSocket) (enable : Bool) (osOk : Bool) :
    Except SocketError Unit :=
  if s.is_valid then
    if osOk then .ok () else .error .kSocketOptionFailed
  else .error .kInvalidSocket

/-- Model of `UDPSocket::set_timeout` of `Socket.cpp` lines 346-363: two
`setsockopt` calls (`SO_RCVTIMEO` then `SO_SNDTIMEO`), each with its own
oracle; failure of either yields `kSocketOptionFailed`. -/
def UDPSocket.set_timeout (s : UDPSocket) (seconds microseconds : Int)
    (osOk1 osOk2 : Bool) : Except SocketError Unit :=
  if s.is_valid then
    if osOk1 && osOk2 then .ok () else .error .kSocketOptionFailed
  else .error .kInvalidSocket

/-- Model of the move constructor `UDPSocket::UDPSocket(UDPSocket&&)` of
`Socket.cpp` lines 123-131: the first component is the newly constructed
endpoint (all four members copied from `other`), the second is `other`
afterwards (`m_socket_fd = -1`, `m_is_bound = false`, address records left
as they were). -/
def UDPSocket.moveConstruct (other : UDPSocket) : UDPSocket × UDPSocket :=
  ({ m_socket_fd := other.m_socket_fd
     m_local_addr := other.m_local_addr
     m_remote_addr := other.m_remote_addr
     m_is_bound := other.m_is_bound },
   { other with m_socket_fd := -1, m_is_bound := false })

/-- Model of the move assignment `UDPSocket::operator=(UDPSocket&&)` of
`Socket.cpp` lines 133-147.  `aliased` models the pointer test
`this == &other`: when it holds, the guarded body is skipped entirely and
both objects are untouched.  Otherwise `this` is first closed, every member
is copied from `other`, and `other` is invalidated.  The result is
`((new this, new other), released)` where `released` records whether the
embedded `close()` released a descriptor. -/
def UDPSocket.moveAssign (lhs other : UDPSocket) (aliased : Bool) :
    (UDPSocket × UDPSocket) × Bool :=
  if aliased then ((lhs, other), false)
  else
    (({ m_socket_fd := other.m_socket_fd
        m_local_addr := other.m_local_addr
        m_remote_addr := other.m_remote_addr
        m_is_bound := other.m_is_bound },
      { other with m_socket_fd := -1, m_is_bound := false }),
     lhs.close.2)

/-- Concrete endpoint used as an explicit input by counterexamples and
witnesses: descriptor 3, successfully bound to 127.0.0.1 port 4000. -/
def exampleBound : UDPSocket :=
  { m_socket_fd := 3
    m_local_addr := ⟨AF_INET, htons 4000, htonl kLocalHost.to_uint32⟩
    m_remote_addr := SockAddrIn.zeroed
    m_is_bound := true }

theorem ntohs_htons (p : Nat) (h : p < 65536) : ntohs (htons p) = p := by
  unfold htons ntohs
  rw [Nat.mod_eq_of_lt h]
  have hlo : p % 256 < 256 := by omega
  have hhi : p / 256 < 256 := by omega
  have hswap : p % 256 * 256 + p / 256 < 65536 := by omega
  rw [Nat.mod_eq_of_lt hswap]
  omega

theorem ntohl_bytes (a b c d : Nat) (ha : a < 256) (hb : b < 256) (hc : c < 256)
    (hd : d < 256) :
    ntohl (a + b * 256 + c * 65536 + d * 16777216) =
      d + c * 256 + b * 65536 + a * 16777216 := by
  unfold ntohl
  have hx : a + b * 256 + c * 65536 + d * 16777216 < 4294967296 := by omega
  rw [Nat.mod_eq_of_lt hx]
  have e0 : (a + b * 256 + c * 65536 + d * 16777216) % 256 = a := by omega
  have e1 : (a + b * 256 + c * 65536 + d * 16777216) / 256 % 256 = b := by omega
  have e2 : (a + b * 256 + c * 65536 + d * 16777216) / 65536 % 256 = c := by omega
  have e3 : (a + b * 256 + c * 65536 + d * 16777216) / 16777216 = d := by omega
  rw [e0, e1, e2, e3]
  ring

theorem ntohl_htonl (n : Nat) (h : n < 4294967296) : ntohl (htonl n) = n := by
  have e : htonl n = n / 16777216 + n / 65536 % 256 * 256 + n / 256 % 256 * 65536 +
      n % 256 * 16777216 := by
    unfold htonl
    rw [Nat.mod_eq_of_lt h]
    ring
  rw [e, ntohl_bytes _ _ _ _ (by omega) (by omega) (by omega) (by omega)]
  have d1 : n / 256 / 256 = n / 65536 := by
    rw [Nat.div_div_eq_div_mul]
  have d2 : n / 65536 / 256 = n / 16777216 := by
    rw [Nat.div_div_eq_div_mul]
  omega

theorem to_uint32_lt (a : IPv4Address) : a.to_uint32 < 4294967296 := by
  obtain ⟨⟨x0, h0⟩, ⟨x1, h1⟩, ⟨x2, h2⟩, ⟨x3, h3⟩⟩ := a
  simp only [IPv4Address.to_uint32]
  omega

theorem ofUint32_to_uint32 (a : IPv4Address) :
    IPv4Address.ofUint32 a.to_uint32 = a := by
  obtain ⟨⟨x0, h0⟩, ⟨x1, h1⟩, ⟨x2, h2⟩, ⟨x3, h3⟩⟩ := a
  simp only [IPv4Address.to_uint32, IPv4Address.ofUint32, IPv4Address.mk.injEq,
    Fin.mk.injEq]
  refine ⟨?_, ?_, ?_, ?_⟩ <;> omega

/-- C3: for every IPv4 address `a`, rebuilding the address from
`a.to_uint32()` via the `uint32_t` constructor gives back `a`, and the low
8 bits of `a.to_uint32()` equal `a.octets[0]` (octet 0 occupies the low
byte of the host-order 32-bit integer). -/
theorem C3_uint32_roundtrip (a : IPv4Address) :
    IPv4Address.ofUint32 a.to_uint32 = a ∧ a.to_uint32 % 256 = a.o0.val := by
  refine ⟨ofUint32_to_uint32 a, ?_⟩
  obtain ⟨⟨x0, h0⟩, ⟨x1, h1⟩, ⟨x2, h2⟩, ⟨x3, h3⟩⟩ := a
  simp only [IPv4Address.to_uint32]
  omega

/-- C5: the error-describing function is total over the enumeration and
returns exactly the fixed phrase for each kind, `kTrainOrderParseError`
falling to the `default` arm "Unknown error". -/
theorem C5_describe_phrases :
    SocketError.to_string .kInvalidSocket = "Invalid socket" ∧
    SocketError.to_string .kBindFailed = "Bind operation failed" ∧
    SocketError.to_string .kConnectFailed = "Connect operation failed" ∧
    SocketError.to_string .kSendFailed = "Send operation failed" ∧
    SocketError.to_string .kReceiveFailed = "Receive operation failed" ∧
    SocketError.to_string .kInvalidAddress = "Invalid address" ∧
    SocketError.to_string .kSocketOptionFailed = "Socket option operation failed" ∧
    SocketError.to_string .kNotBound = "Socket not bound" ∧
    SocketError.to_string .kAddressParseError = "Address parsing error" ∧
    SocketError.to_string .kTrainOrderParseError = "Unknown error" := by
  refine ⟨rfl, rfl, rfl, rfl, rfl, rfl, rfl, rfl, rfl, rfl⟩

instance (l : List Char) : Decidable (decimalNoLeadingZeros l) := by
  unfold decimalNoLeadingZeros
  infer_instance

set_option maxRecDepth 8192 in
theorem parseOctet_octetChars : ∀ n, n < 256 → parseOctet (octetChars n) = some n := by
  decide

set_option maxRecDepth 8192 in
theorem octetChars_no_dot : ∀ n, n < 256 → '.' ∉ octetChars n := by
  decide

set_option maxRecDepth 8192 in
theorem octetChars_decimal : ∀ n, n < 256 → decimalNoLeadingZeros (octetChars n) := by
  decide

theorem splitOnDot_no_dot (l : List Char) (h : '.' ∉ l) : splitOnDot l = [l] := by
  induction l with
  | nil => rfl
  | cons c rest ih =>
    have hc : ¬ c = '.' := fun e => h (by simp [e])
    have hr : '.' ∉ rest := fun m => h (List.mem_cons_of_mem _ m)
    simp [splitOnDot, hc, ih hr]

theorem splitOnDot_append (l1 l2 : List Char) (h : '.' ∉ l1) :
    splitOnDot (l1 ++ '.' :: l2) = l1 :: splitOnDot l2 := by
  induction l1 with
  | nil => simp [splitOnDot]
  | cons c rest ih =>
    have hc : ¬ c = '.' := fun e => h (by simp [e])
    have hr : '.' ∉ rest := fun m => h (List.mem_cons_of_mem _ m)
    simp [splitOnDot, hc, ih hr]

theorem from_string_to_string (a : IPv4Address) :
    IPv4Address.from_string a.to_string = Except.ok a := by
  obtain ⟨⟨x0, h0⟩, ⟨x1, h1⟩, ⟨x2, h2⟩, ⟨x3, h3⟩⟩ := a
  have hsplit : splitOnDot (octetChars x0 ++ '.' :: (octetChars x1 ++ '.' ::
      (octetChars x2 ++ '.' :: octetChars x3))) =
      [octetChars x0, octetChars x1, octetChars x2, octetChars x3] := by
    rw [splitOnDot_append _ _ (octetChars_no_dot x0 h0),
      splitOnDot_append _ _ (octetChars_no_dot x1 h1),
      splitOnDot_append _ _ (octetChars_no_dot x2 h2),
      splitOnDot_no_dot _ (octetChars_no_dot x3 h3)]
  have hdata : (IPv4Address.to_string ⟨⟨x0, h0⟩, ⟨x1, h1⟩, ⟨x2, h2⟩, ⟨x3, h3⟩⟩).data =
      octetChars x0 ++ '.' :: (octetChars x1 ++ '.' ::
        (octetChars x2 ++ '.' :: octetChars x3)) := rfl
  have hpton : inetPtonIPv4
      (IPv4Address.to_string ⟨⟨x0, h0⟩, ⟨x1, h1⟩, ⟨x2, h2⟩, ⟨x3, h3⟩⟩) =
      some (x0 + x1 * 256 + x2 * 65536 + x3 * 16777216) := by
    simp only [inetPtonIPv4, hdata, hsplit, parseOctet_octetChars x0 h0,
      parseOctet_octetChars x1 h1, parseOctet_octetChars x2 h2,
      parseOctet_octetChars x3 h3]
  simp only [IPv4Address.from_string, hpton]
  exact congrArg Except.ok
    (ofUint32_to_uint32 ⟨⟨x0, h0⟩, ⟨x1, h1⟩, ⟨x2, h2⟩, ⟨x3, h3⟩⟩)

/-- C4: for every octet quadruple, formatting the address to its dotted
string and parsing back through the modelled platform parser yields exactly
the same address, and each formatted component is a nonempty string of
decimal digit characters with no leading zeros. -/
theorem C4_format_parse_roundtrip (a : IPv4Address) :
    IPv4Address.from_string a.to_string = Except.ok a ∧
    decimalNoLeadingZeros (octetChars a.o0.val) ∧
    decimalNoLeadingZeros (octetChars a.o1.val) ∧
    decimalNoLeadingZeros (octetChars a.o2.val) ∧
    decimalNoLeadingZeros (octetChars a.o3.val) :=
  ⟨from_string_to_string a, octetChars_decimal a.o0.val a.o0.isLt,
    octetChars_decimal a.o1.val a.o1.isLt, octetChars_decimal a.o2.val a.o2.isLt,
    octetChars_decimal a.o3.val a.o3.isLt⟩

/-- C1 counterexample: on the endpoint bound to 127.0.0.1:4000, a second
`bind(10.0.0.1, 5000)` rejected by the OS returns `kBindFailed` yet
overrides the previously recorded local address and port: the getters
observably switch from 127.0.0.1:4000 to 10.0.0.1:5000, so the endpoint
does not remain in its prior state. -/
theorem C1_counterexample :
    (UDPSocket.bind exampleBound (IPv4Address.mk4 10 0 0 1) 5000 false).1 =
      Except.error SocketError.kBindFailed ∧
    UDPSocket.get_local_address exampleBound = Except.ok kLocalHost ∧
    UDPSocket.get_local_port exampleBound = Except.ok 4000 ∧
    UDPSocket.get_local_address
        (UDPSocket.bind exampleBound (IPv4Address.mk4 10 0 0 1) 5000 false).2 =
      Except.ok (IPv4Address.mk4 10 0 0 1) ∧
    UDPSocket.get_local_port
        (UDPSocket.bind exampleBound (IPv4Address.mk4 10 0 0 1) 5000 false).2 =
      Except.ok 5000 ∧
    (UDPSocket.bind exampleBound (IPv4Address.mk4 10 0 0 1) 5000
        false).2.m_local_addr ≠ exampleBound.m_local_addr := by
  refine ⟨rfl, rfl, rfl, rfl, rfl, by decide⟩

/-- C1 amended: when `bind(a, p)` on a valid endpoint fails with
`kBindFailed`, the bound flag, the descriptor and the remote record are
unchanged, but the recorded local address record has already been
overwritten with the arguments of the failed call (`htons p`,
`htonl a.to_uint32`). -/
theorem C1_bind_failed_state (s : UDPSocket) (a : IPv4Address) (p : Nat)
    (hv : s.is_valid = true) :
    (s.bind a p false).1 = Except.error SocketError.kBindFailed ∧
    (s.bind a p false).2.m_is_bound = s.m_is_bound ∧
    (s.bind a p false).2.m_socket_fd = s.m_socket_fd ∧
    (s.bind a p false).2.m_remote_addr = s.m_remote_addr ∧
    (s.bind a p false).2.m_local_addr = ⟨AF_INET, htons p, htonl a.to_uint32⟩ := by
  simp [UDPSocket.bind, hv]

theorem C1_bind_failed_state_witness :
    (UDPSocket.bind exampleBound kAny 1234 false).1 =
      Except.error SocketError.kBindFailed ∧
    (UDPSocket.bind exampleBound kAny 1234 false).2.m_is_bound =
      exampleBound.m_is_bound ∧
    (UDPSocket.bind exampleBound kAny 1234 false).2.m_socket_fd =
      exampleBound.m_socket_fd ∧
    (UDPSocket.bind exampleBound kAny 1234 false).2.m_remote_addr =
      exampleBound.m_remote_addr ∧
    (UDPSocket.bind exampleBound kAny 1234 false).2.m_local_addr =
      ⟨AF_INET, htons 1234, htonl kAny.to_uint32⟩ :=
  C1_bind_failed_state exampleBound kAny 1234 (by decide)

/-- C2 counterexample: a successful `bind(0.0.0.0, 0)` on a fresh endpoint
makes `get_local_port()` return 0, the stored value, not a strictly
positive OS-assigned ephemeral port (the source never calls
`getsockname`). -/
theorem C2_counterexample :
    (UDPSocket.bind (UDPSocket.mkSocket 3) kAny 0 true).1 = Except.ok () ∧
    UDPSocket.get_local_port
        (UDPSocket.bind (UDPSocket.mkSocket 3) kAny 0 true).2 = Except.ok 0 ∧
    ¬ ∃ q, UDPSocket.get_local_port
        (UDPSocket.bind (UDPSocket.mkSocket 3) kAny 0 true).2 = Except.ok q ∧
      0 < q := by
  refine ⟨rfl, rfl, ?_⟩
  rintro ⟨q, hq, hpos⟩
  have h0 : UDPSocket.get_local_port
      (UDPSocket.bind (UDPSocket.mkSocket 3) kAny 0 true).2 = Except.ok 0 := rfl
  rw [h0] at hq
  injection hq with h
  omega

/-- C2 amended: after a successful `bind(a, p)` on a valid endpoint,
`get_local_address()` returns `a` and `get_local_port()` returns exactly
the `p` that was passed — including `p = 0`, where 0 is returned rather
than the OS-assigned ephemeral port. -/
theorem C2_bind_success_getters (s : UDPSocket) (a : IPv4Address) (p : Nat)
    (hv : s.is_valid = true) (hp : p < 65536) :
    (s.bind a p true).1 = Except.ok () ∧
    UDPSocket.get_local_address (s.bind a p true).2 = Except.ok a ∧
    UDPSocket.get_local_port (s.bind a p true).2 = Except.ok p := by
  refine ⟨?_, ?_, ?_⟩ <;>
    simp [UDPSocket.bind, hv, UDPSocket.get_local_address,
      UDPSocket.get_local_port, ntohl_htonl _ (to_uint32_lt a),
      ofUint32_to_uint32, ntohs_htons _ hp]

theorem C2_bind_success_getters_witness :
    ((UDPSocket.mkSocket 3).bind kLocalHost 4000 true).1 = Except.ok () ∧
    UDPSocket.get_local_address
        ((UDPSocket.mkSocket 3).bind kLocalHost 4000 true).2 =
      Except.ok kLocalHost ∧
    UDPSocket.get_local_port
        ((UDPSocket.mkSocket 3).bind kLocalHost 4000 true).2 =
      Except.ok 4000 :=
  C2_bind_success_getters (UDPSocket.mkSocket 3) kLocalHost 4000 (by decide)
    (by decide)

/-- C6: after a move (move construction, or move assignment into a
different endpoint), the destination holds the full original state of the
source, while the moved-from source is invalid and every
descriptor-requiring operation (`bind`, `send_to`, `receive_from`,
`set_broadcast`, `set_reuse_address`, `set_timeout`) on it returns
`kInvalidSocket`, whatever the OS oracles say. -/
theorem C6_move_invalidates_source (s lhs : UDPSocket) :
    (UDPSocket.moveConstruct s).1 = s ∧
    (UDPSocket.moveConstruct s).2.is_valid = false ∧
    (UDPSocket.moveAssign lhs s false).1.1 = s ∧
    (UDPSocket.moveAssign lhs s false).1.2 = (UDPSocket.moveConstruct s).2 ∧
    (∀ a p ok, ((UDPSocket.moveConstruct s).2.bind a p ok).1 =
      Except.error SocketError.kInvalidSocket) ∧
    (∀ n a p r, (UDPSocket.moveConstruct s).2.send_to n a p r =
      Except.error SocketError.kInvalidSocket) ∧
    (∀ n b aN pN, (UDPSocket.moveConstruct s).2.receive_from n b aN pN =
      Except.error SocketError.kInvalidSocket) ∧
    (∀ e ok, (UDPSocket.moveConstruct s).2.set_broadcast e ok =
      Except.error SocketError.kInvalidSocket) ∧
    (∀ e ok, (UDPSocket.moveConstruct s).2.set_reuse_address e ok =
      Except.error SocketError.kInvalidSocket) ∧
    (∀ sec us ok1 ok2, (UDPSocket.moveConstruct s).2.set_timeout sec us ok1 ok2 =
      Except.error SocketError.kInvalidSocket) := by
  refine ⟨rfl, rfl, rfl, rfl, fun a p ok => rfl, fun n a p r => rfl,
    fun n b aN pN => rfl, fun e ok => rfl, fun e ok => rfl,
    fun sec us ok1 ok2 => rfl⟩

/-- C7: `close()` is idempotent: after the first call the endpoint is
invalid, a second call returns the very same state and releases nothing,
any number of further calls changes nothing, and a descriptor is released
exactly on the first call on a valid endpoint (the member returns `void`,
so no call can report an error). -/
theorem C7_close_idempotent (s : UDPSocket) :
    (s.close.1).is_valid = false ∧
    (s.close.1).close = (s.close.1, false) ∧
    (s.close.2 = true ↔ s.is_valid = true) ∧
    ∀ n, (s.close.1).closeTimes n = s.close.1 := by
  have h1 : (s.close.1).close = (s.close.1, false) := by
    by_cases h : s.m_socket_fd = -1 <;> simp [UDPSocket.close, h]
  refine ⟨?_, h1, ?_, ?_⟩
  · by_cases h : s.m_socket_fd = -1 <;>
      simp [UDPSocket.close, UDPSocket.is_valid, h]
  · by_cases h : s.m_socket_fd = -1 <;>
      simp [UDPSocket.close, UDPSocket.is_valid, h]
  · intro n
    induction n with
    | zero => rfl
    | succ n ih => simpa [UDPSocket.closeTimes, h1] using ih

/-- C8: any endpoint successfully produced by `create()` has never been
bound, so `get_local_address()` and `get_local_port()` both return
`kNotBound`; and they still do after a `bind` that failed on it. -/
theorem C8_create_not_bound (osFd : Int) (s : UDPSocket)
    (h : UDPSocket.create osFd = Except.ok s) :
    s.get_local_address = Except.error SocketError.kNotBound ∧
    s.get_local_port = Except.error SocketError.kNotBound ∧
    ∀ a p, UDPSocket.get_local_address (s.bind a p false).2 =
        Except.error SocketError.kNotBound ∧
      UDPSocket.get_local_port (s.bind a p false).2 =
        Except.error SocketError.kNotBound := by
  have hs : s = UDPSocket.mkSocket osFd := by
    by_cases hv : (UDPSocket.mkSocket osFd).is_valid = true
    · simp [UDPSocket.create, hv] at h
      exact h.symm
    · simp [UDPSocket.create, hv] at h
  subst hs
  refine ⟨rfl, rfl, fun a p => ?_⟩
  by_cases hfd : osFd = -1
  · subst hfd
    exact ⟨rfl, rfl⟩
  · constructor <;>
      simp [UDPSocket.bind, UDPSocket.mkSocket, UDPSocket.is_valid, hfd,
        UDPSocket.get_local_address, UDPSocket.get_local_port]

theorem C8_create_not_bound_witness :
    (UDPSocket.mkSocket 3).get_local_address =
      Except.error SocketError.kNotBound ∧
    (UDPSocket.mkSocket 3).get_local_port =
      Except.error SocketError.kNotBound ∧
    ∀ a p, UDPSocket.get_local_address
        ((UDPSocket.mkSocket 3).bind a p false).2 =
      Except.error SocketError.kNotBound ∧
      UDPSocket.get_local_port ((UDPSocket.mkSocket 3).bind a p false).2 =
        Except.error SocketError.kNotBound :=
  C8_create_not_bound 3 (UDPSocket.mkSocket 3) rfl

/-- C9: self-move-assignment is a no-op: the `this != &other` guard fails,
so every field is unchanged, the endpoint still owns its descriptor, and
the embedded `close()` is never reached (no descriptor is released). -/
theorem C9_self_move_assign_noop (s : UDPSocket) :
    UDPSocket.moveAssign s s true = ((s, s), false) := rfl

/-- C10: `close()` on a bound endpoint clears the bound flag, so
`get_local_address()` and `get_local_port()` return `kNotBound` afterwards
even though the endpoint had once been successfully bound. -/
theorem C10_close_then_not_bound (s : UDPSocket) (hb : s.m_is_bound = true)
    (hfd : s.m_socket_fd ≠ -1) :
    (s.close.1).get_local_address = Except.error SocketError.kNotBound ∧
    (s.close.1).get_local_port = Except.error SocketError.kNotBound := by
  constructor <;>
    simp [UDPSocket.close, hfd, UDPSocket.get_local_address,
      UDPSocket.get_local_port]

theorem C10_close_then_not_bound_witness :
    UDPSocket.get_local_address exampleBound = Except.ok kLocalHost ∧
    ((exampleBound.close.1).get_local_address =
        Except.error SocketError.kNotBound ∧
      (exampleBound.close.1).get_local_port =
        Except.error SocketError.kNotBound) :=
  ⟨rfl, C10_close_then_not_bound exampleBound rfl (by decide)⟩

end R3
